import Mathlib

/-!
Shallow embedding of the submap refinement and pose-graph optimization
pipeline of `bs_models/src/lib/global_mapping/global_map_refinement.cpp`
(class `GlobalMapRefinement`), together with theorems settling the claims
about it.

Modelling conventions:
* Rigid transforms (`Eigen::Matrix4d` pose matrices) are elements of an
  arbitrary group `G`: matrix multiplication is `*`,
  `beam::InvertTransform` is `⁻¹`.  All theorems are stated for an
  arbitrary group; concrete evaluations use `Multiplicative ℤ`.
* Timestamps (`ros::Time`) are `Nat`.
* Point clouds are lists of abstract points, themselves modelled as group
  elements moved by left multiplication (`TransformPointCloud` /
  `pcl::transformPointCloud` map a transform over the cloud).
* C++ exceptions (`throw std::runtime_error` and friends) are `Except.error`.
* External collaborators (the matchers, the reloc candidate search, the
  reloc refinement, the fuse solver) are parameters: functions supplied as
  input, per their documented contracts.
* File-system effects (`create_directory`, `SaveResults`) and logging
  (`BEAM_INFO` / `BEAM_ERROR`) have no data flow into the results; error
  logs that the claims mention are reflected as explicit trace events.
-/

set_option linter.unusedVariables false

namespace BeamSlam

/-- `GlobalMapRefinement::RegistrationResult` (source lines 90-96): built
from an initial and a final transform; the stored `dR`/`dt` are real-valued
functions of `Ti⁻¹ * Tf` (used only for reporting), so the embedding
records the two constructor inputs. -/
structure RegistrationResult (G : Type) where
  Ti : G
  Tf : G
deriving DecidableEq, Repr

/-- One stage's summary map (`Summary::submap_refinement` or
`Summary::submap_alignment`): a mapping from timestamp to
`RegistrationResult`, filled with `std::map::emplace`. -/
abbrev Summary (G : Type) := List (Nat × RegistrationResult G)

/-- `std::map::emplace`: inserts the pair only when the key is not yet
present (the claims do not depend on the key ordering of `std::map`, so the
embedding keeps insertion order). -/
def summaryEmplace {G : Type} (s : Summary G) (k : Nat) (v : RegistrationResult G) :
    Summary G :=
  if s.any (fun e => e.1 = k) then s else s ++ [(k, v)]

/-- `bs_models::ScanPose` as used here: a lidar scan keyframe with its
timestamp and its pose `T_REFFRAME_BASELINK`. -/
structure ScanPose (G : Type) where
  stamp : Nat
  pose : G
deriving DecidableEq, Repr

/-- A `bs_models::global_mapping::Submap` as used by the refinement
pipeline: its stamp, current world pose `T_WORLD_SUBMAP` (mutable),
immutable initial world pose `T_WORLD_SUBMAP_INIT`, its lidar keyframes in
temporal order (a `std::map` keyed by time in C++), and its accumulated
clouds in the *initial* world frame, i.e. the values of
`GetLidarLoamPointsInWorldFrame(use_initials = true)` (feature cloud) and
`GetLidarPointsInWorldFrameCombined(use_initials = true)` (plain cloud). -/
structure Submap (G : Type) where
  stamp : Nat
  T_WORLD_SUBMAP : G
  T_WORLD_SUBMAP_INIT : G
  lidarKeyframes : List (ScanPose G)
  loamCloudWorldInit : List G
  cloudWorldInit : List G
deriving DecidableEq

/-- A registration matcher (`beam_matching` `Matcher` interface as used by
`AlignSubmaps`): after `SetRef`/`SetTarget` with the two clouds, `Match()`
returns a success flag and `ApplyResult(seed)` returns the refined relative
transform. -/
structure Matcher (G : Type) where
  matchSucceeds : List G → List G → Bool
  applyResult : List G → List G → G → G

/-- `GlobalMapRefinement::AlignSubmaps` (source lines 273-362), transcribed
step by step.  `matcher_loam` is the optional feature-based matcher
(`matcher_loam_`), `matcher` the point-based one (`matcher_`); the branch
is chosen by `if (matcher_loam_)` exactly as in the source.  `pathOk`
stands for `output_path.empty() || std::filesystem::exists(output_path)`;
when it is false the function throws `"invalid path"`.  Note that the
source assigns `bool match_success = ...Match();` and never reads it: the
embedding keeps the unused binding, and the function can only return with
result flag `true`. -/
def AlignSubmaps {G : Type} [Group G] (matcher_loam : Option (Matcher G))
    (matcher : Matcher G) (submap_ref : Submap G) (submap_tgt : Submap G)
    (pathOk : Bool) (summary_alignment : Summary G) :
    Except String (Submap G × Summary G × Bool) :=
  if !pathOk then .error "invalid path" else
  let T_World_SubmapRef := submap_ref.T_WORLD_SUBMAP
  let T_World_SubmapRef_Init := submap_ref.T_WORLD_SUBMAP_INIT
  let T_World_SubmapTgt_Init := submap_tgt.T_WORLD_SUBMAP_INIT
  let T_SubmapRef_SubmapTgt_Init :=
    T_World_SubmapRef_Init⁻¹ * T_World_SubmapTgt_Init
  let T_W_B_i := submap_tgt.T_WORLD_SUBMAP
  match matcher_loam with
  | some m =>
    let T_SubmapRef_WorldInit := T_World_SubmapRef_Init⁻¹
    let ref_in_ref_submap_frame :=
      submap_ref.loamCloudWorldInit.map (fun p => T_SubmapRef_WorldInit * p)
    let tgt_in_ref_submap_frame :=
      submap_tgt.loamCloudWorldInit.map (fun p => T_SubmapRef_WorldInit * p)
    let match_success :=
      m.matchSucceeds ref_in_ref_submap_frame tgt_in_ref_submap_frame
    let T_SubmapRef_SubmapTgt :=
      m.applyResult ref_in_ref_submap_frame tgt_in_ref_submap_frame
        T_SubmapRef_SubmapTgt_Init
    let T_World_SubmapTgt := T_World_SubmapRef * T_SubmapRef_SubmapTgt
    let submap_tgt2 := { submap_tgt with T_WORLD_SUBMAP := T_World_SubmapTgt }
    let T_W_B_f := submap_tgt2.T_WORLD_SUBMAP
    .ok (submap_tgt2,
      summaryEmplace summary_alignment submap_tgt2.stamp ⟨T_W_B_i, T_W_B_f⟩,
      true)
  | none =>
    let T_SubmapRef_WorldInit := T_World_SubmapRef_Init⁻¹
    let ref_in_ref_submap_frame :=
      submap_ref.cloudWorldInit.map (fun p => T_SubmapRef_WorldInit * p)
    let tgt_in_ref_submap_frame :=
      submap_tgt.cloudWorldInit.map (fun p => T_SubmapRef_WorldInit * p)
    let match_success :=
      matcher.matchSucceeds ref_in_ref_submap_frame tgt_in_ref_submap_frame
    let T_SubmapRef_SubmapTgt :=
      matcher.applyResult ref_in_ref_submap_frame tgt_in_ref_submap_frame
        T_SubmapRef_SubmapTgt_Init
    let T_World_SubmapTgt := T_World_SubmapRef * T_SubmapRef_SubmapTgt
    let submap_tgt2 := { submap_tgt with T_WORLD_SUBMAP := T_World_SubmapTgt }
    let T_W_B_f := submap_tgt2.T_WORLD_SUBMAP
    .ok (submap_tgt2,
      summaryEmplace summary_alignment submap_tgt2.stamp ⟨T_W_B_i, T_W_B_f⟩,
      true)

/-- The alignment loop body of `RunSubmapAlignment` (source lines 208-214):
walks the submap list sequentially, aligning each submap against its
already-updated predecessor (`submaps.at(i-1)` holds the pose written by
the previous iteration, since submaps are shared pointers mutated in
place).  Returns the updated submap list, the summary, and the stage
result flag; `if (!AlignSubmaps(..)) return false` is the early exit. -/
def alignChain {G : Type} [Group G] (matcher_loam : Option (Matcher G))
    (matcher : Matcher G) (pathOk : Bool) (prev : Submap G) :
    List (Submap G) → Summary G → Except String (List (Submap G) × Summary G × Bool)
  | [], summary_alignment => .ok ([prev], summary_alignment, true)
  | tgt :: rest, summary_alignment =>
    match AlignSubmaps matcher_loam matcher prev tgt pathOk summary_alignment with
    | .error e => .error e
    | .ok (tgt2, summary2, ok) =>
      if !ok then .ok (prev :: tgt2 :: rest, summary2, false)
      else
        match alignChain matcher_loam matcher pathOk tgt2 rest summary2 with
        | .error e => .error e
        | .ok (updated, summary3, ok3) => .ok (prev :: updated, summary3, ok3)

/-- `GlobalMapRefinement::RunSubmapAlignment` (source lines 199-216): fewer
than two submaps is a warning and immediate success; otherwise the chain of
consecutive pairs is aligned in order and the first failed pair aborts the
stage with `false`. -/
def RunSubmapAlignment {G : Type} [Group G] (matcher_loam : Option (Matcher G))
    (matcher : Matcher G) (pathOk : Bool) (submaps : List (Submap G))
    (summary_alignment : Summary G) :
    Except String (List (Submap G) × Summary G × Bool) :=
  if submaps.length < 2 then .ok (submaps, summary_alignment, true)
  else
    match submaps with
    | [] => .ok ([], summary_alignment, true)
    | s0 :: rest => alignChain matcher_loam matcher pathOk s0 rest summary_alignment

/-- Observable events of `RunPoseGraphOptimization`, in program order.
`logSizeError` is the `BEAM_ERROR` for a too-small map (source lines
368-372), `addPrior`/`addChain` are the prior and chain-constraint
transactions applied to the graph, `search` is a
`FindRelocCandidates` call with its `ignore_last_n_submaps` argument,
`rejectCandidate` is the `BEAM_ERROR("Error in candidate search
implementation, please fix!")` + `continue`, `refineAttempt` /
`refineFailed` bracket a `RunRefinement` call, `addLoop` is a loop-closure
constraint merged into the transaction, `solve` is `graph->optimize()` and
`updatePoses` is `global_map_->UpdateSubmapPoses`. -/
inductive PGOEvent (G : Type) where
  | logSizeError
  | addPrior (idx : Nat)
  | addChain (prevIdx curIdx : Nat) (T : G)
  | search (query ignoreLastN : Nat)
  | rejectCandidate (query matched : Nat)
  | refineAttempt (query matched : Nat)
  | refineFailed (query matched : Nat)
  | addLoop (query matched : Nat) (T : G)
  | solve
  | updatePoses
deriving DecidableEq, Repr

/-- The pose graph as assembled by `RunPoseGraphOptimization`: pose
variables, absolute priors, and relative constraints, all identified by
submap index (submap stamps are strictly increasing, so the index is a
faithful variable identity). -/
structure PoseGraph (G : Type) where
  vars : List Nat
  priors : List Nat
  rel : List (Nat × Nat × G)
deriving DecidableEq, Repr

/-- `submaps.at(i)->T_WORLD_SUBMAP()`; the callers below only use it with
in-range indices (out-of-range `.at` is modelled where it can fire). -/
def poseAt {G : Type} [Group G] (submaps : List (Submap G)) (i : Nat) : G :=
  ((submaps.get? i).map Submap.T_WORLD_SUBMAP).getD 1

/-- One iteration of the chain-constraint loop of
`RunPoseGraphOptimization` (source lines 399-424): a transaction adding
submap `i`'s pose variables and a relative constraint to submap `i-1`
measured as
`InvertTransform(previous->T_WORLD_SUBMAP()) * current->T_WORLD_SUBMAP()`.
The source's `if (i < 1) { continue; }` (dead, since `i` starts at 1) is
kept: on that path the transaction is dropped before `graph->update`. -/
def chainStep {G : Type} [Group G] (submaps : List (Submap G))
    (acc : PoseGraph G × List (PGOEvent G)) (i : Nat) :
    PoseGraph G × List (PGOEvent G) :=
  if i < 1 then acc
  else
    let T_PREVIOUS_CURRENT := (poseAt submaps (i - 1))⁻¹ * poseAt submaps i
    ({ vars := acc.1.vars ++ [i], priors := acc.1.priors,
       rel := acc.1.rel ++ [(i - 1, i, T_PREVIOUS_CURRENT)] },
     acc.2 ++ [PGOEvent.addChain (i - 1) i T_PREVIOUS_CURRENT])

/-- The chain-graph construction of `RunPoseGraphOptimization`: the prior
transaction on submap 0 followed by one `chainStep` per index `i ≥ 1`. -/
def buildChain {G : Type} [Group G] (submaps : List (Submap G)) :
    PoseGraph G × List (PGOEvent G) :=
  (List.range' 1 (submaps.length - 1)).foldl (chainStep submaps)
    ({ vars := [0], priors := [0], rel := [] }, [PGOEvent.addPrior 0])

/-- Inputs of `RunPoseGraphOptimization`: the submaps, the configured
`pgo_skip_first_n_submaps_`, and the two loop-closure collaborators.
`findRelocCandidates query ignoreLastN` returns the matched indices with
their coarse transforms `T_MATCH_QUERY` (the collaborator reads the submap
poses, which the sweep may have updated; the embedding abstracts it as a
function of the query); `runRefinement matched query T` returns the
refined `T_MATCH_QUERY` on success and `none` on failure. -/
structure PGOInput (G : Type) where
  submaps : List (Submap G)
  skipFirstN : Nat
  findRelocCandidates : Nat → Nat → List (Nat × G)
  runRefinement : Nat → Nat → G → Option G

/-- One candidate of the inner loop (source lines 453-478): a candidate
with `matched_indices[i] >= query_index - 1` is rejected with an error log
and `continue`; otherwise `RunRefinement` is attempted and, on success,
the loop-closure constraint `(matched, query, T_MATCH_QUERY)` is merged
into the transaction.  (For `Nat` arguments the comparison
`m ≥ query - 1` agrees with the C++ `int` comparison at every point,
including `query = 0` where both sides make it always true.) -/
def processCandidate {G : Type} (runRefinement : Nat → Nat → G → Option G)
    (query : Nat) (cand : Nat × G) :
    List (PGOEvent G) × List (Nat × Nat × G) :=
  if cand.1 ≥ query - 1 then ([PGOEvent.rejectCandidate query cand.1], [])
  else
    match runRefinement cand.1 query cand.2 with
    | none => ([PGOEvent.refineAttempt query cand.1,
                PGOEvent.refineFailed query cand.1], [])
    | some T => ([PGOEvent.refineAttempt query cand.1,
                  PGOEvent.addLoop query cand.1 T], [(cand.1, query, T)])

/-- The inner candidate loop for one query (source lines 452-478): each
candidate is handled independently and the per-candidate events and
constraints are concatenated in order. -/
def processCandidates {G : Type} (runRefinement : Nat → Nat → G → Option G)
    (query : Nat) : List (Nat × G) → List (PGOEvent G) × List (Nat × Nat × G)
  | [] => ([], [])
  | c :: cs =>
    let r := processCandidate runRefinement query c
    let rs := processCandidates runRefinement query cs
    (r.1 ++ rs.1, r.2 ++ rs.2)

/-- One iteration of the sweep (source lines 428-482): compute
`ignore_last_n_submaps = submaps.size() - query_index + 1`, run the
candidate search, `continue` when no candidates were found (no graph
update, no solve), otherwise process every candidate, apply the
accumulated transaction, `graph->optimize()` and push the poses back. -/
def sweepStep {G : Type} (inp : PGOInput G) (query : Nat) :
    List (PGOEvent G) × List (Nat × Nat × G) :=
  let ignore_last_n_submaps := inp.submaps.length - query + 1
  let cands := inp.findRelocCandidates query ignore_last_n_submaps
  if cands.length = 0 then ([PGOEvent.search query ignore_last_n_submaps], [])
  else
    let r := processCandidates inp.runRefinement query cands
    ([PGOEvent.search query ignore_last_n_submaps] ++ r.1 ++
       [PGOEvent.solve, PGOEvent.updatePoses], r.2)

/-- The query indices visited by
`for (int query_index = pgo_skip_first_n_submaps_;
      query_index < num_submaps - 1; query_index++)`
for `num_submaps ≥ 1` (the `num_submaps = 0` case never reaches the loop:
`submaps.at(0)` has already thrown). -/
def sweepQueries (numSubmaps skipFirstN : Nat) : List Nat :=
  List.range' skipFirstN (numSubmaps - 1 - skipFirstN)

/-- Accumulation of one sweep iteration's events and constraints. -/
def sweepAccum {G : Type} (inp : PGOInput G)
    (acc : List (PGOEvent G) × List (Nat × Nat × G)) (q : Nat) :
    List (PGOEvent G) × List (Nat × Nat × G) :=
  (acc.1 ++ (sweepStep inp q).1, acc.2 ++ (sweepStep inp q).2)

/-- The whole loop-closure sweep: events and loop constraints of every
query, concatenated in query order. -/
def runSweep {G : Type} (inp : PGOInput G) :
    List (PGOEvent G) × List (Nat × Nat × G) :=
  (sweepQueries inp.submaps.length inp.skipFirstN).foldl (sweepAccum inp) ([], [])

/-- `GlobalMapRefinement::RunPoseGraphOptimization` (source lines 364-484):
the too-small-map check only logs an error (no early return); with zero
submaps `submaps.at(0)` in the prior block throws; otherwise the chain
graph is built, the sweep runs, and the function returns `true` (its only
`return` statement).  The result carries the final graph (chain plus the
loop constraints accumulated by the sweep), the event trace, and the
returned flag. -/
def RunPoseGraphOptimization {G : Type} [Group G] (inp : PGOInput G) :
    Except String (PoseGraph G × List (PGOEvent G) × Bool) :=
  let num_submaps := inp.submaps.length
  let sizeEvents : List (PGOEvent G) :=
    if num_submaps ≤ inp.skipFirstN then [PGOEvent.logSizeError] else []
  if num_submaps = 0 then .error "vector::at out of range"
  else
    let chain := buildChain inp.submaps
    let sweep := runSweep inp
    .ok ({ chain.1 with rel := chain.1.rel ++ sweep.2 },
      sizeEvents ++ chain.2 ++ sweep.1, true)

/-- The `(query, ignoreLastN)` arguments of the candidate-search calls in
a trace, in order. -/
def searchEvents {G : Type} : List (PGOEvent G) → List (Nat × Nat)
  | [] => []
  | PGOEvent.search q i :: es => (q, i) :: searchEvents es
  | _ :: es => searchEvents es

/-- Whether an event is a `graph->optimize()` call. -/
def isSolve {G : Type} : PGOEvent G → Bool
  | PGOEvent.solve => true
  | _ => false

/-- Whether an event is a candidate-search call. -/
def isSearch {G : Type} : PGOEvent G → Bool
  | PGOEvent.search _ _ => true
  | _ => false

/-- Modelled from the spec: the scan registration engine
(`sr::ScanRegistrationBase`, not under src/).  Per §4.1 and §6,
`RegisterNewScan(scan).GetTransaction()` yields a transaction adding the
scan's own pose variable (one pose variable per scan, scan-to-map
registration) together with its relative constraint, or a null transaction
when registration for that scan fails.  The payload records the scan's
measured constraint abstractly. -/
structure RefineEngine (G : Type) where
  registerNewScan : ScanPose G → Option G

/-- Modelled from the spec: the nonlinear least-squares solve of the local
`fuse_graphs::HashGraph` (collaborator, §6).  `poseOf` gives the optimized
pose of a pose variable, identified by its scan stamp. -/
structure LocalSolver (G : Type) where
  poseOf : Nat → G

/-- The local factor graph of `RefineSubmap`: the per-scan transactions
that were applied with `graph->update` (stamp of the scan whose variables
the transaction adds, plus its abstract constraint payload). -/
def localGraphFactors {G : Type} (engine : RefineEngine G)
    (keyframes : List (ScanPose G)) : List (Nat × G) :=
  keyframes.foldl
    (fun acc scan_pose =>
      match engine.registerNewScan scan_pose with
      | some T => acc ++ [(scan_pose.stamp, T)]
      | none => acc) []

/-- Modelled from the spec: `ScanPose::UpdatePose(graph)` (source not
under src/) looks the scan's pose variables up in the optimized graph and
overwrites the scan pose with the optimized value; a scan whose variables
are absent from the graph — its registration failed and contributed no
factor — retains its prior pose estimate (§4.1 "best effort" policy). -/
def updatePoseFromGraph {G : Type} (graphVars : List Nat)
    (solver : LocalSolver G) (sp : ScanPose G) : ScanPose G :=
  if sp.stamp ∈ graphVars then { sp with pose := solver.poseOf sp.stamp } else sp

/-- `GlobalMapRefinement::RefineSubmap` (source lines 218-271).  `pathOk`
stands for `output_path.empty() || std::filesystem::exists(output_path)`
(throws `"invalid path"` when false, before anything else).  `engineOpt`
is the result of `sr::ScanRegistrationBase::Create` — modelled from the
spec as optional, `none` meaning the fatal engine-construction error of
§4.1 (that code is not under src/).  Then every scan keyframe is
registered (null transactions are skipped by `if (transaction)`), the
graph is optimized, every scan pose is overwritten from the graph, and a
`RegistrationResult` comparing the pose before and after is emplaced into
the refinement summary under the scan's stamp.  Returns `true`. -/
def RefineSubmap {G : Type} [Group G] (engineOpt : Option (RefineEngine G))
    (solver : LocalSolver G) (pathOk : Bool) (submap : Submap G)
    (summary_refinement : Summary G) :
    Except String (Submap G × Summary G × Bool) :=
  if !pathOk then .error "invalid path" else
  match engineOpt with
  | none => .error "scan registration engine construction failed"
  | some engine =>
    let factors := localGraphFactors engine submap.lidarKeyframes
    let graphVars := factors.map (fun f => f.1)
    let newKeyframes :=
      submap.lidarKeyframes.map (updatePoseFromGraph graphVars solver)
    let summary2 :=
      submap.lidarKeyframes.foldl
        (fun s scan_pose =>
          let T_W_B_init := scan_pose.pose
          let T_W_B_after := (updatePoseFromGraph graphVars solver scan_pose).pose
          summaryEmplace s scan_pose.stamp ⟨T_W_B_init, T_W_B_after⟩)
        summary_refinement
    .ok ({ submap with lidarKeyframes := newKeyframes }, summary2, true)

/-- The matcher types recognised by `GlobalMapRefinement::Setup`
(source lines 161-179); `unknown` stands for any other
`GetTypeFromConfig` outcome. -/
inductive MatcherType where
  | LOAM
  | ICP
  | GICP
  | NDT
  | unknown
deriving DecidableEq, Repr

/-- The aspects of the refinement config JSON that
`Params::LoadJson` checks (source lines 17-88): readability and the
presence of the required keys of each section, plus the matcher type named
by the submap-alignment matcher config (consumed later by `Setup`). -/
structure ConfigJson where
  readable : Bool
  hasTopLevelKeys : Bool
  hasLoopClosureKeys : Bool
  hasSubmapRefinementKeys : Bool
  hasSubmapAlignmentKeys : Bool
  alignmentMatcherType : MatcherType
deriving DecidableEq, Repr

/-- The slice of `GlobalMapRefinement::Params` the claims need: the
matcher type selected by `submap_alignment.matcher_config`. -/
structure Params where
  alignmentMatcherType : MatcherType
deriving DecidableEq, Repr

/-- `GlobalMapRefinement::Params::LoadJson` (source lines 17-88): an empty
config path keeps the defaults; an unreadable file throws; each
`ValidateJsonKeysOrThrow` throws when its required keys are missing.  The
output path is not an input — `LoadJson` never sees it. -/
def LoadJson (configPathEmpty : Bool) (j : ConfigJson) (defaults : Params) :
    Except String Params :=
  if configPathEmpty then .ok defaults
  else if !j.readable then .error "Unable to read global map refinement config"
  else if !j.hasTopLevelKeys then .error "missing required json keys"
  else if !j.hasLoopClosureKeys then .error "missing required json keys"
  else if !j.hasSubmapRefinementKeys then .error "missing required json keys"
  else if !j.hasSubmapAlignmentKeys then .error "missing required json keys"
  else .ok { alignmentMatcherType := j.alignmentMatcherType }

/-- `GlobalMapRefinement::Setup` (source lines 161-185): constructs the
alignment matcher from the configured type, throwing `"invalid json"` for
any unrecognised type.  Returns whether the feature-based (`LOAM`) matcher
was selected.  `Setup` takes no output path and performs no path check. -/
def Setup (p : Params) : Except String Bool :=
  match p.alignmentMatcherType with
  | MatcherType.LOAM => .ok true
  | MatcherType.ICP => .ok false
  | MatcherType.GICP => .ok false
  | MatcherType.NDT => .ok false
  | MatcherType.unknown => .error "invalid json"

/-- The constructor sequence of `GlobalMapRefinement` (source lines
137-159): `params_.LoadJson(config_path)` then `Setup()`, both before any
stage can run. -/
def GlobalMapRefinementConstruct (configPathEmpty : Bool) (j : ConfigJson)
    (defaults : Params) : Except String Bool :=
  match LoadJson configPathEmpty j defaults with
  | .error e => .error e
  | .ok p => Setup p

/-- The success flag of a per-submap stage call (`none` when the call
threw). -/
def submapFlag {G : Type} (r : Except String (Submap G × Summary G × Bool)) :
    Option Bool :=
  match r with
  | .ok x => some x.2.2
  | .error _ => none

/-- The summary returned by a per-submap stage call. -/
def submapSummary {G : Type} (r : Except String (Submap G × Summary G × Bool)) :
    Option (Summary G) :=
  match r with
  | .ok x => some x.2.1
  | .error _ => none

/-- The `T_WORLD_SUBMAP` written to the target submap by a stage call. -/
def submapPose {G : Type} (r : Except String (Submap G × Summary G × Bool)) :
    Option G :=
  match r with
  | .ok x => some x.1.T_WORLD_SUBMAP
  | .error _ => none

/-- The scan keyframes of the submap returned by a stage call. -/
def submapKeyframes {G : Type}
    (r : Except String (Submap G × Summary G × Bool)) :
    Option (List (ScanPose G)) :=
  match r with
  | .ok x => some x.1.lidarKeyframes
  | .error _ => none

/-- The success flag of a whole-stage call. -/
def stageFlag {G : Type}
    (r : Except String (List (Submap G) × Summary G × Bool)) : Option Bool :=
  match r with
  | .ok x => some x.2.2
  | .error _ => none

/-- The summary of a whole-stage call. -/
def stageSummary {G : Type}
    (r : Except String (List (Submap G) × Summary G × Bool)) :
    Option (Summary G) :=
  match r with
  | .ok x => some x.2.1
  | .error _ => none

/-- The returned flag of `RunPoseGraphOptimization` (`none` when it
threw). -/
def pgoFlag {G : Type}
    (r : Except String (PoseGraph G × List (PGOEvent G) × Bool)) :
    Option Bool :=
  match r with
  | .ok x => some x.2.2
  | .error _ => none

/-- The event trace of `RunPoseGraphOptimization`, empty when it threw. -/
def pgoTrace {G : Type}
    (r : Except String (PoseGraph G × List (PGOEvent G) × Bool)) :
    List (PGOEvent G) :=
  match r with
  | .ok x => x.2.1
  | .error _ => []

/-- The final graph of `RunPoseGraphOptimization`. -/
def pgoGraph {G : Type}
    (r : Except String (PoseGraph G × List (PGOEvent G) × Bool)) :
    Option (PoseGraph G) :=
  match r with
  | .ok x => some x.1
  | .error _ => none

/-! Concrete inputs, used by counterexamples and witnesses.  The concrete
transform group is `Multiplicative ℤ` (composition of transforms is
addition of offsets). -/

/-- Concrete transform group for evaluations. -/
abbrev Gc : Type := Multiplicative ℤ

/-- A concrete transform. -/
def gc (z : ℤ) : Gc := Multiplicative.ofAdd z

/-- A concrete submap with the given stamp, current and initial pose. -/
def mkSubmap (stamp : Nat) (cur init : ℤ) : Submap Gc :=
  { stamp := stamp
    T_WORLD_SUBMAP := gc cur
    T_WORLD_SUBMAP_INIT := gc init
    lidarKeyframes := []
    loamCloudWorldInit := [gc 7]
    cloudWorldInit := [gc 7] }

/-- Concrete submap 0. -/
def wa0 : Submap Gc := mkSubmap 10 2 1

/-- Concrete submap 1. -/
def wa1 : Submap Gc := mkSubmap 20 5 3

/-- Concrete submap 2. -/
def wa2 : Submap Gc := mkSubmap 30 9 6

/-- A registration matcher whose `Match()` fails on every call. -/
def failMatcher : Matcher Gc :=
  { matchSucceeds := fun _ _ => false
    applyResult := fun _ _ seed => seed }

/-- A registration matcher whose `Match()` succeeds on every call. -/
def okMatcher : Matcher Gc :=
  { matchSucceeds := fun _ _ => true
    applyResult := fun _ _ seed => seed }

/-- Loop-closure input: every candidate search returns no candidates. -/
def pgoInC2 : PGOInput Gc :=
  { submaps := [wa0, wa1, wa2]
    skipFirstN := 1
    findRelocCandidates := fun _ _ => []
    runRefinement := fun _ _ _ => none }

/-- Loop-closure input with four submaps and one candidate list holding an
invariant-violating candidate followed by a good one. -/
def pgoInW : PGOInput Gc :=
  { submaps := [wa0, wa1, wa2, mkSubmap 40 14 10]
    skipFirstN := 1
    findRelocCandidates := fun q _ => if q = 2 then [(2, gc 1), (0, gc 1)] else []
    runRefinement := fun _ _ T => some T }

/-- Loop-closure input with a single submap and a larger skip threshold. -/
def pgoInSmall : PGOInput Gc :=
  { submaps := [wa0]
    skipFirstN := 3
    findRelocCandidates := fun _ _ => []
    runRefinement := fun _ _ _ => none }

/-- Loop-closure input with no submaps at all. -/
def pgoInEmpty : PGOInput Gc :=
  { submaps := []
    skipFirstN := 0
    findRelocCandidates := fun _ _ => []
    runRefinement := fun _ _ _ => none }

/-- A concrete refinement engine that fails on the scan stamped 2 and
succeeds on every other scan. -/
def wEngine : RefineEngine Gc :=
  { registerNewScan := fun sp => if sp.stamp = 2 then none else some (gc 1) }

/-- A concrete local solver. -/
def wSolver : LocalSolver Gc := { poseOf := fun t => gc (Int.ofNat t) }

/-- A concrete submap with three scan keyframes stamped 1, 2, 3. -/
def wSubmapScans : Submap Gc :=
  { stamp := 10
    T_WORLD_SUBMAP := gc 2
    T_WORLD_SUBMAP_INIT := gc 1
    lidarKeyframes := [⟨1, gc 4⟩, ⟨2, gc 5⟩, ⟨3, gc 6⟩]
    loamCloudWorldInit := [gc 7]
    cloudWorldInit := [gc 7] }

/-- A config JSON that is readable and complete, with a point-based
matcher type. -/
def goodJson : ConfigJson :=
  { readable := true
    hasTopLevelKeys := true
    hasLoopClosureKeys := true
    hasSubmapRefinementKeys := true
    hasSubmapAlignmentKeys := true
    alignmentMatcherType := MatcherType.ICP }

/-- Default parameters. -/
def wDefaults : Params := { alignmentMatcherType := MatcherType.ICP }

/-! Helper lemmas about the embedding. -/

theorem searchEvents_append {G : Type} (l1 l2 : List (PGOEvent G)) :
    searchEvents (l1 ++ l2) = searchEvents l1 ++ searchEvents l2 := by
  induction l1 with
  | nil => rfl
  | cons e es ih => cases e <;> simp [searchEvents, ih]

theorem searchEvents_eq_nil {G : Type} {l : List (PGOEvent G)}
    (h : ∀ e ∈ l, isSearch e = false) : searchEvents l = [] := by
  induction l with
  | nil => rfl
  | cons e es ih =>
    cases e <;> simp_all [searchEvents, isSearch]

theorem processCandidate_events {G : Type} (f : Nat → Nat → G → Option G)
    (q : Nat) (c : Nat × G) :
    ∀ e ∈ (processCandidate f q c).1, isSearch e = false ∧ isSolve e = false := by
  unfold processCandidate
  split
  · intro e he
    simp only [List.mem_singleton] at he
    subst he
    exact ⟨rfl, rfl⟩
  · split
    · intro e he
      simp only [List.mem_cons, List.not_mem_nil, or_false] at he
      rcases he with h1 | h1 <;> (subst h1; exact ⟨rfl, rfl⟩)
    · intro e he
      simp only [List.mem_cons, List.not_mem_nil, or_false] at he
      rcases he with h1 | h1 <;> (subst h1; exact ⟨rfl, rfl⟩)

theorem processCandidates_events {G : Type} (f : Nat → Nat → G → Option G)
    (q : Nat) (l : List (Nat × G)) :
    ∀ e ∈ (processCandidates f q l).1, isSearch e = false ∧ isSolve e = false := by
  induction l with
  | nil => intro e he; simp [processCandidates] at he
  | cons c cs ih =>
    intro e he
    simp only [processCandidates, List.mem_append] at he
    rcases he with h | h
    · exact processCandidate_events f q c e h
    · exact ih e h

theorem searchEvents_sweepStep {G : Type} (inp : PGOInput G) (q : Nat) :
    searchEvents (sweepStep inp q).1 = [(q, inp.submaps.length - q + 1)] := by
  unfold sweepStep
  dsimp only
  split
  · rfl
  · rw [searchEvents_append, searchEvents_append]
    rw [searchEvents_eq_nil
        (fun e he => (processCandidates_events _ _ _ e he).1)]
    rfl

theorem sweepStep_head {G : Type} (inp : PGOInput G) (q : Nat) :
    ∃ t, (sweepStep inp q).1 =
      PGOEvent.search q (inp.submaps.length - q + 1) :: t := by
  unfold sweepStep
  dsimp only
  split
  · exact ⟨[], rfl⟩
  · exact ⟨_, rfl⟩

theorem foldl_sweepAccum {G : Type} (inp : PGOInput G) (qs : List Nat)
    (acc : List (PGOEvent G) × List (Nat × Nat × G)) :
    qs.foldl (sweepAccum inp) acc =
      (acc.1 ++ (qs.map (fun q => (sweepStep inp q).1)).flatten,
       acc.2 ++ (qs.map (fun q => (sweepStep inp q).2)).flatten) := by
  induction qs generalizing acc with
  | nil => simp
  | cons q qs ih =>
    rw [List.foldl_cons, ih]
    simp [sweepAccum, List.append_assoc]

theorem runSweep_fst {G : Type} (inp : PGOInput G) :
    (runSweep inp).1 =
      ((sweepQueries inp.submaps.length inp.skipFirstN).map
        (fun q => (sweepStep inp q).1)).flatten := by
  unfold runSweep
  rw [foldl_sweepAccum]
  simp

theorem runSweep_snd {G : Type} (inp : PGOInput G) :
    (runSweep inp).2 =
      ((sweepQueries inp.submaps.length inp.skipFirstN).map
        (fun q => (sweepStep inp q).2)).flatten := by
  unfold runSweep
  rw [foldl_sweepAccum]
  simp

theorem searchEvents_join_sweepSteps {G : Type} (inp : PGOInput G)
    (qs : List Nat) :
    searchEvents ((qs.map (fun q => (sweepStep inp q).1)).flatten) =
      qs.map (fun q => (q, inp.submaps.length - q + 1)) := by
  induction qs with
  | nil => rfl
  | cons q qs ih =>
    simp only [List.map_cons, List.flatten_cons]
    rw [searchEvents_append, searchEvents_sweepStep, ih]
    rfl

theorem foldl_chainStep {G : Type} [Group G] (submaps : List (Submap G))
    (l : List Nat) (hl : ∀ i ∈ l, 1 ≤ i) (g : PoseGraph G)
    (es : List (PGOEvent G)) :
    l.foldl (chainStep submaps) (g, es) =
      ({ vars := g.vars ++ l, priors := g.priors,
         rel := g.rel ++ l.map (fun i =>
           (i - 1, i, (poseAt submaps (i - 1))⁻¹ * poseAt submaps i)) },
       es ++ l.map (fun i => PGOEvent.addChain (i - 1) i
         ((poseAt submaps (i - 1))⁻¹ * poseAt submaps i))) := by
  induction l generalizing g es with
  | nil =>
    obtain ⟨v, p, r⟩ := g
    simp
  | cons i is ih =>
    have h1 : ¬ i < 1 := by
      have := hl i (List.mem_cons_self i is)
      omega
    rw [List.foldl_cons]
    have hstep : chainStep submaps (g, es) i =
        ({ vars := g.vars ++ [i], priors := g.priors,
           rel := g.rel ++ [(i - 1, i,
             (poseAt submaps (i - 1))⁻¹ * poseAt submaps i)] },
         es ++ [PGOEvent.addChain (i - 1) i
           ((poseAt submaps (i - 1))⁻¹ * poseAt submaps i)]) := by
      unfold chainStep
      rw [if_neg h1]
    rw [hstep, ih (fun j hj => hl j (List.mem_cons_of_mem i hj))]
    simp [List.append_assoc]

theorem buildChain_spec {G : Type} [Group G] (submaps : List (Submap G)) :
    buildChain submaps =
      ({ vars := 0 :: List.range' 1 (submaps.length - 1), priors := [0],
         rel := (List.range' 1 (submaps.length - 1)).map (fun i =>
           (i - 1, i, (poseAt submaps (i - 1))⁻¹ * poseAt submaps i)) },
       PGOEvent.addPrior 0 :: (List.range' 1 (submaps.length - 1)).map
         (fun i => PGOEvent.addChain (i - 1) i
           ((poseAt submaps (i - 1))⁻¹ * poseAt submaps i))) := by
  unfold buildChain
  rw [foldl_chainStep submaps _ (fun i hi => (List.mem_range'_1.mp hi).1)]
  simp

theorem chainEvents_not_search_solve {G : Type} [Group G]
    (submaps : List (Submap G)) :
    ∀ e ∈ (buildChain submaps).2, isSearch e = false ∧ isSolve e = false := by
  rw [buildChain_spec]
  intro e he
  simp only [List.mem_cons, List.mem_map] at he
  rcases he with h | ⟨i, hi, h⟩ <;> (subst h; exact ⟨rfl, rfl⟩)

theorem countP_isSolve_processCandidates {G : Type}
    (f : Nat → Nat → G → Option G) (q : Nat) (l : List (Nat × G)) :
    ((processCandidates f q l).1).countP isSolve = 0 :=
  List.countP_eq_zero.mpr
    (fun e he => by simp [(processCandidates_events f q l e he).2])

theorem countP_isSolve_sweepStep {G : Type} (inp : PGOInput G) (q : Nat) :
    ((sweepStep inp q).1).countP isSolve =
      if (inp.findRelocCandidates q (inp.submaps.length - q + 1)).length = 0
      then 0 else 1 := by
  unfold sweepStep
  dsimp only
  split
  · simp_all [isSolve]
  · simp [List.countP_append, List.countP_cons, isSolve,
      countP_isSolve_processCandidates]

theorem countP_isSolve_runSweep {G : Type} (inp : PGOInput G) :
    ((runSweep inp).1).countP isSolve =
      (sweepQueries inp.submaps.length inp.skipFirstN).countP
        (fun q => ¬(inp.findRelocCandidates q
          (inp.submaps.length - q + 1)).length = 0) := by
  rw [runSweep_fst]
  induction sweepQueries inp.submaps.length inp.skipFirstN with
  | nil => rfl
  | cons q qs ih =>
    simp only [List.map_cons, List.flatten_cons, List.countP_append,
      List.countP_cons, ih, countP_isSolve_sweepStep]
    by_cases h : (inp.findRelocCandidates q
        (inp.submaps.length - q + 1)).length = 0
    · simp [h]
    · simp [h]
      omega

theorem takeWhile_append_all {α : Type} (p : α → Bool) (l1 l2 : List α)
    (h : ∀ e ∈ l1, p e = true) :
    (l1 ++ l2).takeWhile p = l1 ++ l2.takeWhile p := by
  induction l1 with
  | nil => rfl
  | cons a l ih =>
    simp only [List.cons_append, List.takeWhile_cons]
    rw [h a (List.mem_cons_self a l)]
    simp [ih (fun e he => h e (List.mem_cons_of_mem a he))]

theorem countP_isSolve_takeWhile_runSweep {G : Type} (inp : PGOInput G) :
    (((runSweep inp).1).takeWhile (fun e => !isSearch e)).countP isSolve = 0 := by
  rw [runSweep_fst]
  cases hq : sweepQueries inp.submaps.length inp.skipFirstN with
  | nil => rfl
  | cons q qs =>
    simp only [List.map_cons, List.flatten_cons]
    obtain ⟨t, ht⟩ := sweepStep_head inp q
    rw [ht]
    simp [List.takeWhile_cons, isSearch]

theorem mem_sweepQueries (n skip q : Nat) :
    q ∈ sweepQueries n skip ↔ skip ≤ q ∧ q + 1 < n := by
  unfold sweepQueries
  rw [List.mem_range'_1]
  omega

theorem pgoResult_err {G : Type} [Group G] (inp : PGOInput G)
    (h0 : inp.submaps.length = 0) :
    RunPoseGraphOptimization inp = .error "vector::at out of range" := by
  unfold RunPoseGraphOptimization
  dsimp only
  rw [if_pos h0]

theorem pgoResult_ok {G : Type} [Group G] (inp : PGOInput G)
    (h0 : ¬ inp.submaps.length = 0) :
    RunPoseGraphOptimization inp =
      .ok ({ (buildChain inp.submaps).1 with
             rel := (buildChain inp.submaps).1.rel ++ (runSweep inp).2 },
        (if inp.submaps.length ≤ inp.skipFirstN then [PGOEvent.logSizeError]
         else []) ++ (buildChain inp.submaps).2 ++ (runSweep inp).1, true) := by
  unfold RunPoseGraphOptimization
  dsimp only
  rw [if_neg h0]

theorem mem_sizeEvents {G : Type} (c : Prop) [Decidable c] (e : PGOEvent G)
    (he : e ∈ if c then [PGOEvent.logSizeError] else []) :
    e = PGOEvent.logSizeError := by
  split at he
  · simpa using he
  · simp at he

theorem processCandidates_append {G : Type} (f : Nat → Nat → G → Option G)
    (q : Nat) (l1 l2 : List (Nat × G)) :
    processCandidates f q (l1 ++ l2) =
      ((processCandidates f q l1).1 ++ (processCandidates f q l2).1,
       (processCandidates f q l1).2 ++ (processCandidates f q l2).2) := by
  induction l1 with
  | nil => simp [processCandidates]
  | cons c cs ih => simp [processCandidates, ih, List.append_assoc]

/-! Theorems settling the claims. -/

/-- C1 (code bug): the spec requires a registration failure during
alignment to abort the whole stage with no summary entry, but
`AlignSubmaps` assigns `bool match_success = ...Match()` and never reads
it.  At a concrete input whose matcher fails on every call,
`RunSubmapAlignment` still returns `true` and the alignment summary still
receives the entry for the (failed) pair keyed by the target stamp 20. -/
theorem alignment_ignores_match_failure :
    stageFlag (RunSubmapAlignment none failMatcher true [wa0, wa1] []) =
      some true ∧
    (stageSummary (RunSubmapAlignment none failMatcher true [wa0, wa1] [])).map
      (fun s => s.map Prod.fst) = some [20] := ⟨rfl, rfl⟩

/-- C2 counterexample: at a concrete input (three submaps, skip-first-1,
candidate search always empty) the loop-closure sweep runs (one candidate
search event) yet the whole trace contains zero `graph->optimize()` calls:
no baseline solve happens between building the chain graph and the sweep,
contradicting the claim that the graph is solved once before the sweep
begins. -/
theorem no_baseline_solve_cex :
    (pgoTrace (RunPoseGraphOptimization pgoInC2)).countP isSearch = 1 ∧
    (pgoTrace (RunPoseGraphOptimization pgoInC2)).countP isSolve = 0 ∧
    pgoFlag (RunPoseGraphOptimization pgoInC2) = some true := ⟨rfl, rfl, rfl⟩

/-- C2 (amended): `RunPoseGraphOptimization` never solves the graph
between building the chain pose graph and the start of the loop-closure
sweep — the trace before the first candidate-search event contains no
solve — and the graph is solved exactly once per sweep iteration whose
candidate search returned a non-empty list. -/
theorem solve_only_after_candidates {G : Type} [Group G] (inp : PGOInput G) :
    ((pgoTrace (RunPoseGraphOptimization inp)).takeWhile
        (fun e => !isSearch e)).countP isSolve = 0 ∧
    (pgoTrace (RunPoseGraphOptimization inp)).countP isSolve =
      (sweepQueries inp.submaps.length inp.skipFirstN).countP
        (fun q => ¬(inp.findRelocCandidates q
          (inp.submaps.length - q + 1)).length = 0) := by
  by_cases h0 : inp.submaps.length = 0
  · have hsq : sweepQueries inp.submaps.length inp.skipFirstN = [] := by
      unfold sweepQueries
      simp [h0]
    rw [pgoResult_err inp h0, hsq]
    exact ⟨rfl, rfl⟩
  · have hpre : ∀ e ∈ ((if inp.submaps.length ≤ inp.skipFirstN
        then [PGOEvent.logSizeError] else []) ++ (buildChain inp.submaps).2),
        (fun e => !isSearch e) e = true := by
      intro e he
      rw [List.mem_append] at he
      rcases he with h | h
      · rw [mem_sizeEvents _ e h]
        rfl
      · simp [(chainEvents_not_search_solve inp.submaps e h).1]
    have hpre0 : ((if inp.submaps.length ≤ inp.skipFirstN
        then [PGOEvent.logSizeError] else []) ++
          (buildChain inp.submaps).2).countP isSolve = 0 := by
      refine List.countP_eq_zero.mpr ?_
      intro e he
      rw [List.mem_append] at he
      rcases he with h | h
      · rw [mem_sizeEvents _ e h]
        simp [isSolve]
      · simp [(chainEvents_not_search_solve inp.submaps e h).2]
    rw [pgoResult_ok inp h0]
    constructor
    · show ((((if inp.submaps.length ≤ inp.skipFirstN
          then [PGOEvent.logSizeError] else []) ++ (buildChain inp.submaps).2)
            ++ (runSweep inp).1).takeWhile
              (fun e => !isSearch e)).countP isSolve = 0
      rw [takeWhile_append_all _ _ _ hpre, List.countP_append, hpre0,
        countP_isSolve_takeWhile_runSweep]
    · show (((if inp.submaps.length ≤ inp.skipFirstN
          then [PGOEvent.logSizeError] else []) ++ (buildChain inp.submaps).2
            ++ (runSweep inp).1).countP isSolve = _)
      rw [List.append_assoc, List.countP_append, List.countP_append]
      rw [countP_isSolve_runSweep]
      have h1 : ((if inp.submaps.length ≤ inp.skipFirstN
          then [PGOEvent.logSizeError] else []) : List (PGOEvent G)).countP
          isSolve = 0 := by
        split <;> rfl
      have h2 : ((buildChain inp.submaps).2).countP isSolve = 0 :=
        List.countP_eq_zero.mpr
          (fun e he => by
            simp [(chainEvents_not_search_solve inp.submaps e he).2])
      omega

/-- C3: the loop-closure sweep visits exactly the query indices from the
configured skip-first-N minimum up to and including the second-to-last
submap index, and every candidate search is invoked with
`ignore_last_n_submaps = submaps.size() - query_index + 1`. -/
theorem sweep_range_and_ignore_window {G : Type} [Group G] (inp : PGOInput G) :
    searchEvents (pgoTrace (RunPoseGraphOptimization inp)) =
      (sweepQueries inp.submaps.length inp.skipFirstN).map
        (fun q => (q, inp.submaps.length - q + 1)) ∧
    (∀ q ig, (q, ig) ∈ searchEvents (pgoTrace (RunPoseGraphOptimization inp)) →
      inp.skipFirstN ≤ q ∧ q + 1 < inp.submaps.length ∧
        ig = inp.submaps.length - q + 1) ∧
    (∀ q, inp.skipFirstN ≤ q → q + 1 < inp.submaps.length →
      (q, inp.submaps.length - q + 1) ∈
        searchEvents (pgoTrace (RunPoseGraphOptimization inp))) := by
  have hmain : searchEvents (pgoTrace (RunPoseGraphOptimization inp)) =
      (sweepQueries inp.submaps.length inp.skipFirstN).map
        (fun q => (q, inp.submaps.length - q + 1)) := by
    by_cases h0 : inp.submaps.length = 0
    · have hsq : sweepQueries inp.submaps.length inp.skipFirstN = [] := by
        unfold sweepQueries
        simp [h0]
      rw [pgoResult_err inp h0, hsq]
      rfl
    · rw [pgoResult_ok inp h0]
      show searchEvents ((if inp.submaps.length ≤ inp.skipFirstN
          then [PGOEvent.logSizeError] else []) ++ (buildChain inp.submaps).2
            ++ (runSweep inp).1) = _
      rw [List.append_assoc, searchEvents_append, searchEvents_append]
      rw [searchEvents_eq_nil (fun e he => by
        rw [mem_sizeEvents _ e he]; rfl)]
      rw [searchEvents_eq_nil (fun e he =>
        (chainEvents_not_search_solve inp.submaps e he).1)]
      rw [runSweep_fst, searchEvents_join_sweepSteps]
      rfl
  refine ⟨hmain, ?_, ?_⟩
  · intro q ig hmem
    rw [hmain, List.mem_map] at hmem
    obtain ⟨q', hq', heq⟩ := hmem
    obtain ⟨h1, h2⟩ := (mem_sweepQueries _ _ _).mp hq'
    cases heq
    exact ⟨h1, h2, rfl⟩
  · intro q h1 h2
    rw [hmain]
    exact List.mem_map.mpr ⟨q, (mem_sweepQueries _ _ _).mpr ⟨h1, h2⟩, rfl⟩

/-- C3 witness: at a concrete four-submap input with skip-first-1 the
search events are exactly queries 1 and 2 with windows 4 and 3. -/
theorem sweep_range_and_ignore_window_witness :
    searchEvents (pgoTrace (RunPoseGraphOptimization pgoInW)) =
      (sweepQueries pgoInW.submaps.length pgoInW.skipFirstN).map
        (fun q => (q, pgoInW.submaps.length - q + 1)) ∧
    (2, pgoInW.submaps.length - 2 + 1) ∈
      searchEvents (pgoTrace (RunPoseGraphOptimization pgoInW)) :=
  ⟨(sweep_range_and_ignore_window pgoInW).1,
   (sweep_range_and_ignore_window pgoInW).2.2 2 (by decide) (by decide)⟩

/-- C4: a candidate with `matched_indices[i] >= query_index - 1` is
rejected — its only event is the error log, no refinement is ever
attempted for that matched index — and the rejection does not abort the
sweep: the candidates before and after it in the same query's list are
processed exactly as they would be otherwise, and the rejected candidate
contributes no constraint. -/
theorem candidate_rejection_non_aborting {G : Type}
    (f : Nat → Nat → G → Option G) (query m : Nat) (T : G)
    (l1 l2 : List (Nat × G)) (hm : query - 1 ≤ m) :
    processCandidate f query (m, T) = ([PGOEvent.rejectCandidate query m], []) ∧
    (processCandidates f query (l1 ++ (m, T) :: l2)).1 =
      (processCandidates f query l1).1 ++
        PGOEvent.rejectCandidate query m :: (processCandidates f query l2).1 ∧
    (processCandidates f query (l1 ++ (m, T) :: l2)).2 =
      (processCandidates f query l1).2 ++ (processCandidates f query l2).2 ∧
    ∀ cands : List (Nat × G),
      PGOEvent.refineAttempt query m ∉ (processCandidates f query cands).1 := by
  have hpc : processCandidate f query (m, T) =
      ([PGOEvent.rejectCandidate query m], []) := by
    unfold processCandidate
    rw [if_pos hm]
  refine ⟨hpc, ?_, ?_, ?_⟩
  · rw [processCandidates_append]
    simp [processCandidates, hpc]
  · rw [processCandidates_append]
    simp [processCandidates, hpc]
  · intro cands
    induction cands with
    | nil => simp [processCandidates]
    | cons c cs ih =>
      simp only [processCandidates, List.mem_append, not_or]
      refine ⟨?_, ih⟩
      unfold processCandidate
      by_cases hc : c.1 ≥ query - 1
      · rw [if_pos hc]
        simp
      · rw [if_neg hc]
        have hne : m ≠ c.1 := by omega
        cases hf : f c.1 query c.2 <;> simp [hne]

/-- C4 witness: at query 5 the candidate with matched index 4 is rejected
while the candidates around it are still processed. -/
theorem candidate_rejection_non_aborting_witness :
    processCandidate (fun _ _ T => some T) 5 ((4 : Nat), gc 1) =
      ([PGOEvent.rejectCandidate 5 4], []) ∧
    (processCandidates (fun _ _ T => some T) 5
        ([((0 : Nat), gc 2)] ++ ((4 : Nat), gc 1) :: [((1 : Nat), gc 3)])).1 =
      (processCandidates (fun _ _ T => some T) 5 [((0 : Nat), gc 2)]).1 ++
        PGOEvent.rejectCandidate 5 4 ::
          (processCandidates (fun _ _ T => some T) 5 [((1 : Nat), gc 3)]).1 ∧
    (processCandidates (fun _ _ T => some T) 5
        ([((0 : Nat), gc 2)] ++ ((4 : Nat), gc 1) :: [((1 : Nat), gc 3)])).2 =
      (processCandidates (fun _ _ T => some T) 5 [((0 : Nat), gc 2)]).2 ++
        (processCandidates (fun _ _ T => some T) 5 [((1 : Nat), gc 3)]).2 ∧
    PGOEvent.refineAttempt 5 4 ∉
      (processCandidates (fun _ _ T => some T) 5
        [((0 : Nat), gc 2), ((4 : Nat), gc 1), ((1 : Nat), gc 3)]).1 := by
  have h := candidate_rejection_non_aborting (fun _ _ T => some T) 5 4 (gc 1)
    [((0 : Nat), gc 2)] [((1 : Nat), gc 3)] (by decide)
  exact ⟨h.1, h.2.1, h.2.2.1,
    h.2.2.2 [((0 : Nat), gc 2), ((4 : Nat), gc 1), ((1 : Nat), gc 3)]⟩

/-- C5: in both matcher branches, `AlignSubmaps` moves both accumulated
clouds into the reference submap's initial frame by the inverse of the
reference's `T_WORLD_SUBMAP_INIT`, seeds the matcher with the initial
relative transform `T_WORLD_SUBMAP_INIT(ref)⁻¹ * T_WORLD_SUBMAP_INIT(tgt)`,
and writes the target's new pose as the reference's *current*
`T_WORLD_SUBMAP` composed with the refined relative transform. -/
theorem align_frames_seed_and_compose {G : Type} [Group G]
    (m fallback : Matcher G) (ref tgt : Submap G) (s : Summary G) :
    submapPose (AlignSubmaps (some m) fallback ref tgt true s) =
      some (ref.T_WORLD_SUBMAP * m.applyResult
        (ref.loamCloudWorldInit.map (fun p => ref.T_WORLD_SUBMAP_INIT⁻¹ * p))
        (tgt.loamCloudWorldInit.map (fun p => ref.T_WORLD_SUBMAP_INIT⁻¹ * p))
        (ref.T_WORLD_SUBMAP_INIT⁻¹ * tgt.T_WORLD_SUBMAP_INIT)) ∧
    submapPose (AlignSubmaps none m ref tgt true s) =
      some (ref.T_WORLD_SUBMAP * m.applyResult
        (ref.cloudWorldInit.map (fun p => ref.T_WORLD_SUBMAP_INIT⁻¹ * p))
        (tgt.cloudWorldInit.map (fun p => ref.T_WORLD_SUBMAP_INIT⁻¹ * p))
        (ref.T_WORLD_SUBMAP_INIT⁻¹ * tgt.T_WORLD_SUBMAP_INIT)) := ⟨rfl, rfl⟩

/-- C6: the chain pose graph assembled before any loop closure has exactly
one absolute prior, on submap 0, one pose variable per submap, and exactly
one relative constraint from every submap `i ≥ 1` to its predecessor,
measured as the relative transform between their current world poses. -/
theorem chain_graph_single_prior {G : Type} [Group G]
    (submaps : List (Submap G)) (h : 1 ≤ submaps.length) :
    (buildChain submaps).1.priors = [0] ∧
    (buildChain submaps).1.vars = 0 :: List.range' 1 (submaps.length - 1) ∧
    (buildChain submaps).1.rel =
      (List.range' 1 (submaps.length - 1)).map (fun i =>
        (i - 1, i, (poseAt submaps (i - 1))⁻¹ * poseAt submaps i)) := by
  rw [buildChain_spec]
  exact ⟨rfl, rfl, rfl⟩

/-- C6 witness: the chain graph of three concrete submaps. -/
theorem chain_graph_single_prior_witness :
    (buildChain [wa0, wa1, wa2]).1.priors = [0] ∧
    (buildChain [wa0, wa1, wa2]).1.vars =
      0 :: List.range' 1 (([wa0, wa1, wa2] : List (Submap Gc)).length - 1) ∧
    (buildChain [wa0, wa1, wa2]).1.rel =
      (List.range' 1 (([wa0, wa1, wa2] : List (Submap Gc)).length - 1)).map
        (fun i => (i - 1, i, (poseAt [wa0, wa1, wa2] (i - 1))⁻¹ *
          poseAt [wa0, wa1, wa2] i)) :=
  chain_graph_single_prior [wa0, wa1, wa2] (by decide)

/-- C10: `RunPoseGraphOptimization` returns `true` whenever it returns at
all, and when the number of submaps is at most the skip-first-N threshold
(but nonzero) it logs the size error, still builds the full chain graph
(prior plus chain constraints, with no loop constraints since the sweep is
empty), and reports success. -/
theorem pgo_always_returns_true {G : Type} [Group G] (inp : PGOInput G) :
    (pgoFlag (RunPoseGraphOptimization inp) = none ∨
      pgoFlag (RunPoseGraphOptimization inp) = some true) ∧
    (1 ≤ inp.submaps.length → inp.submaps.length ≤ inp.skipFirstN →
      pgoFlag (RunPoseGraphOptimization inp) = some true ∧
      PGOEvent.logSizeError ∈ pgoTrace (RunPoseGraphOptimization inp) ∧
      pgoGraph (RunPoseGraphOptimization inp) =
        some (buildChain inp.submaps).1) := by
  constructor
  · by_cases h0 : inp.submaps.length = 0
    · left
      rw [pgoResult_err inp h0]
      rfl
    · right
      rw [pgoResult_ok inp h0]
      rfl
  · intro h1 h2
    have h0 : ¬ inp.submaps.length = 0 := by omega
    have hsq : sweepQueries inp.submaps.length inp.skipFirstN = [] := by
      unfold sweepQueries
      have h3 : inp.submaps.length - 1 - inp.skipFirstN = 0 := by omega
      rw [h3]
      simp
    have hsw : runSweep inp = ([], []) := by
      unfold runSweep
      rw [hsq]
      rfl
    rw [pgoResult_ok inp h0]
    refine ⟨rfl, ?_, ?_⟩
    · show PGOEvent.logSizeError ∈
        (if inp.submaps.length ≤ inp.skipFirstN then [PGOEvent.logSizeError]
         else []) ++ (buildChain inp.submaps).2 ++ (runSweep inp).1
      rw [if_pos h2]
      simp
    · show some { (buildChain inp.submaps).1 with
          rel := (buildChain inp.submaps).1.rel ++ (runSweep inp).2 } =
        some (buildChain inp.submaps).1
      rw [hsw]
      simp

/-- C10 counterexample: with zero submaps the skip-threshold condition
`num_submaps <= pgo_skip_first_n_submaps_` holds (0 ≤ 0), the claim says
the function continues and reports success, but `submaps.at(0)` in the
prior block throws `std::out_of_range`: the function aborts instead of
returning at all. -/
theorem pgo_throws_on_empty_cex :
    RunPoseGraphOptimization pgoInEmpty = .error "vector::at out of range" ∧
    pgoInEmpty.submaps.length ≤ pgoInEmpty.skipFirstN := ⟨rfl, by decide⟩

/-- C10 witness: one submap with skip-first-3. -/
theorem pgo_always_returns_true_witness :
    pgoFlag (RunPoseGraphOptimization pgoInSmall) = some true ∧
    PGOEvent.logSizeError ∈ pgoTrace (RunPoseGraphOptimization pgoInSmall) ∧
    pgoGraph (RunPoseGraphOptimization pgoInSmall) =
      some (buildChain pgoInSmall.submaps).1 :=
  (pgo_always_returns_true pgoInSmall).2 (by decide) (by decide)

theorem localGraphFactors_foldl {G : Type} (engine : RefineEngine G)
    (l : List (ScanPose G)) (acc : List (Nat × G)) :
    l.foldl (fun acc scan_pose =>
        match engine.registerNewScan scan_pose with
        | some T => acc ++ [(scan_pose.stamp, T)]
        | none => acc) acc =
      acc ++ l.filterMap (fun sp => (engine.registerNewScan sp).map
        (fun T => (sp.stamp, T))) := by
  induction l generalizing acc with
  | nil => simp
  | cons sp l ih =>
    rw [List.foldl_cons, ih]
    cases h : engine.registerNewScan sp <;>
      simp [h, List.filterMap_cons, List.append_assoc]

theorem localGraphFactors_eq {G : Type} (engine : RefineEngine G)
    (l : List (ScanPose G)) :
    localGraphFactors engine l =
      l.filterMap (fun sp => (engine.registerNewScan sp).map
        (fun T => (sp.stamp, T))) := by
  unfold localGraphFactors
  rw [localGraphFactors_foldl]
  rfl

theorem stamp_not_in_factors {G : Type} (engine : RefineEngine G)
    (l : List (ScanPose G)) (sp : ScanPose G) (hmem : sp ∈ l)
    (hfail : engine.registerNewScan sp = none)
    (hnodup : (l.map ScanPose.stamp).Nodup) :
    sp.stamp ∉ (localGraphFactors engine l).map Prod.fst := by
  rw [localGraphFactors_eq]
  intro hin
  rw [List.mem_map] at hin
  obtain ⟨⟨t, T⟩, hpair, hfst⟩ := hin
  rw [List.mem_filterMap] at hpair
  obtain ⟨sp2, hsp2, hmap⟩ := hpair
  cases h2 : engine.registerNewScan sp2 with
  | none =>
    rw [h2] at hmap
    simp at hmap
  | some T2 =>
    rw [h2] at hmap
    simp at hmap
    have hstamp : sp2.stamp = sp.stamp := by
      rw [hmap.1]
      exact hfst
    have hsame : sp2 = sp := List.inj_on_of_nodup_map hnodup hsp2 hmem hstamp
    rw [hsame, hfail] at h2
    exact Option.noConfusion h2

theorem updatePose_not_mem {G : Type} (graphVars : List Nat)
    (solver : LocalSolver G) (sp : ScanPose G) (h : sp.stamp ∉ graphVars) :
    updatePoseFromGraph graphVars solver sp = sp := by
  unfold updatePoseFromGraph
  rw [if_neg h]

theorem summaryEmplace_not_mem {G : Type} (s : Summary G) (k : Nat)
    (v : RegistrationResult G) (h : k ∉ s.map Prod.fst) :
    summaryEmplace s k v = s ++ [(k, v)] := by
  unfold summaryEmplace
  rw [if_neg]
  intro hc
  rw [List.any_eq_true] at hc
  obtain ⟨e, he, heq⟩ := hc
  exact h (List.mem_map.mpr ⟨e, he, of_decide_eq_true heq⟩)

theorem emplace_fold {G : Type} (f : ScanPose G → RegistrationResult G) :
    ∀ (l : List (ScanPose G)) (s : Summary G),
      (∀ sp ∈ l, sp.stamp ∉ s.map Prod.fst) →
      ((l.map ScanPose.stamp).Nodup) →
      l.foldl (fun acc sp => summaryEmplace acc sp.stamp (f sp)) s =
        s ++ l.map (fun sp => (sp.stamp, f sp)) := by
  intro l
  induction l with
  | nil => intro s _ _; simp
  | cons sp l ih =>
    intro s hfresh hnodup
    rw [List.foldl_cons,
      summaryEmplace_not_mem _ _ _ (hfresh sp (List.mem_cons_self sp l))]
    rw [List.map_cons, List.nodup_cons] at hnodup
    rw [ih (s ++ [(sp.stamp, f sp)]) ?_ hnodup.2]
    · simp [List.append_assoc]
    · intro sp2 h2
      rw [List.map_append, List.mem_append]
      intro hc
      rcases hc with hc | hc
      · exact hfresh sp2 (List.mem_cons_of_mem sp h2) hc
      · simp only [List.map_cons, List.map_nil, List.mem_singleton] at hc
        exact hnodup.1 (hc ▸ List.mem_map.mpr ⟨sp2, h2, rfl⟩)

/-- C7: a per-scan registration failure does not abort the submap: the
failed scan contributes no factor to the local graph, keeps its prior pose
(it is carried unchanged into the refined submap), and `RefineSubmap`
still returns `true`; the only ways `RefineSubmap` aborts are the invalid
output path and the engine-construction failure, both before any scan is
touched. -/
theorem refine_scan_failure_best_effort {G : Type} [Group G]
    (engine : RefineEngine G) (solver : LocalSolver G) (submap : Submap G)
    (s : Summary G) (sp : ScanPose G)
    (hmem : sp ∈ submap.lidarKeyframes)
    (hfail : engine.registerNewScan sp = none)
    (hnodup : (submap.lidarKeyframes.map ScanPose.stamp).Nodup) :
    submapFlag (RefineSubmap (some engine) solver true submap s) = some true ∧
    sp.stamp ∉ (localGraphFactors engine submap.lidarKeyframes).map Prod.fst ∧
    updatePoseFromGraph
      ((localGraphFactors engine submap.lidarKeyframes).map Prod.fst) solver sp
      = sp ∧
    sp ∈ (submapKeyframes
      (RefineSubmap (some engine) solver true submap s)).getD [] ∧
    RefineSubmap (G := G) none solver true submap s =
      .error "scan registration engine construction failed" ∧
    RefineSubmap (some engine) solver false submap s = .error "invalid path" := by
  have hnot := stamp_not_in_factors engine _ sp hmem hfail hnodup
  have hupd := updatePose_not_mem _ solver sp hnot
  refine ⟨rfl, hnot, hupd, ?_, rfl, rfl⟩
  show sp ∈ submap.lidarKeyframes.map (updatePoseFromGraph
    ((localGraphFactors engine submap.lidarKeyframes).map Prod.fst) solver)
  exact List.mem_map.mpr ⟨sp, hmem, hupd⟩

/-- C7 witness: the engine failing on the scan stamped 2 in a concrete
three-scan submap. -/
theorem refine_scan_failure_best_effort_witness :
    submapFlag (RefineSubmap (some wEngine) wSolver true wSubmapScans []) =
      some true ∧
    updatePoseFromGraph
      ((localGraphFactors wEngine wSubmapScans.lidarKeyframes).map Prod.fst)
      wSolver ⟨2, gc 5⟩ = ⟨2, gc 5⟩ := by
  have h := refine_scan_failure_best_effort wEngine wSolver wSubmapScans []
    ⟨2, gc 5⟩ (by decide) (by decide) (by decide)
  exact ⟨h.1, h.2.2.1⟩

/-- C8: `RefineSubmap` appends to the refinement summary exactly one
`RegistrationResult` per scan keyframe, keyed by the scan's stamp and
comparing the pose before and after the graph solve, regardless of whether
the scan's registration succeeded. -/
theorem refine_summary_one_entry_per_scan {G : Type} [Group G]
    (engine : RefineEngine G) (solver : LocalSolver G) (submap : Submap G)
    (s : Summary G)
    (hnodup : (submap.lidarKeyframes.map ScanPose.stamp).Nodup)
    (hfresh : ∀ sp ∈ submap.lidarKeyframes, sp.stamp ∉ s.map Prod.fst) :
    submapSummary (RefineSubmap (some engine) solver true submap s) =
      some (s ++ submap.lidarKeyframes.map (fun sp =>
        (sp.stamp, ⟨sp.pose,
          (updatePoseFromGraph ((localGraphFactors engine
            submap.lidarKeyframes).map Prod.fst) solver sp).pose⟩))) :=
  congrArg some
    (emplace_fold _ submap.lidarKeyframes s hfresh hnodup)

/-- C8 witness: three scans, one of which fails to register, produce
exactly three summary entries keyed 1, 2, 3. -/
theorem refine_summary_one_entry_per_scan_witness :
    submapSummary (RefineSubmap (some wEngine) wSolver true wSubmapScans []) =
      some (([] : Summary Gc) ++ wSubmapScans.lidarKeyframes.map (fun sp =>
        (sp.stamp, ⟨sp.pose,
          (updatePoseFromGraph ((localGraphFactors wEngine
            wSubmapScans.lidarKeyframes).map Prod.fst) wSolver sp).pose⟩))) :=
  refine_summary_one_entry_per_scan wEngine wSolver wSubmapScans []
    (by decide) (by decide)

/-- C9 counterexample: with a readable, complete config and a valid
matcher type, construction (`LoadJson` + `Setup`) succeeds even though the
output path is invalid; the invalid-path exception is raised only when a
stage function (`RefineSubmap` / `AlignSubmaps`) runs — so the claim that
an invalid output path is raised at setup, before any stage runs, is
false. -/
theorem output_path_checked_at_stage_cex :
    GlobalMapRefinementConstruct false goodJson wDefaults = .ok false ∧
    RefineSubmap (G := Gc) (some wEngine) wSolver false wSubmapScans [] =
      .error "invalid path" ∧
    AlignSubmaps (G := Gc) none okMatcher wa0 wa1 false [] =
      .error "invalid path" := ⟨rfl, rfl, rfl⟩

/-- C9 (amended): an unreadable config file, missing required JSON keys
and an invalid matcher type are fatal exceptions raised during setup
(`LoadJson` / `Setup`), before any stage runs; an invalid output path is
also fatal but is raised at the start of the stage call
(`RefineSubmap` / `AlignSubmaps`), before any submap state is mutated or
summary entry written in that call (the thrown call returns no updated
submap or summary). -/
theorem config_errors_fatal_amended {G : Type} [Group G]
    (j : ConfigJson) (d : Params) (p : Params)
    (engineOpt : Option (RefineEngine G)) (solver : LocalSolver G)
    (submap : Submap G) (s : Summary G) (ml : Option (Matcher G))
    (mt : Matcher G) (ref tgt : Submap G) (s2 : Summary G) :
    (j.readable = false →
      LoadJson false j d =
        .error "Unable to read global map refinement config") ∧
    (j.readable = true → j.hasTopLevelKeys = false →
      LoadJson false j d = .error "missing required json keys") ∧
    (p.alignmentMatcherType = MatcherType.unknown →
      Setup p = .error "invalid json") ∧
    RefineSubmap engineOpt solver false submap s = .error "invalid path" ∧
    AlignSubmaps ml mt ref tgt false s2 = .error "invalid path" := by
  refine ⟨?_, ?_, ?_, rfl, rfl⟩
  · intro h
    simp [LoadJson, h]
  · intro h1 h2
    simp [LoadJson, h1, h2]
  · intro h
    simp [Setup, h]

/-- C9 witness: each fatal configuration error at a concrete input. -/
theorem config_errors_fatal_amended_witness :
    LoadJson false { goodJson with readable := false } wDefaults =
      .error "Unable to read global map refinement config" ∧
    Setup { alignmentMatcherType := MatcherType.unknown } =
      .error "invalid json" ∧
    RefineSubmap (G := Gc) (some wEngine) wSolver false wSubmapScans [] =
      .error "invalid path" := by
  have h := config_errors_fatal_amended (G := Gc)
    { goodJson with readable := false } wDefaults
    { alignmentMatcherType := MatcherType.unknown }
    (some wEngine) wSolver wSubmapScans [] none okMatcher wa0 wa1 []
  exact ⟨h.1 rfl, h.2.2.1 rfl, h.2.2.2.1⟩

end BeamSlam
